import Mathlib

/-!
Verification of the 2D cage manipulator
(`source/blender/editors/manipulator_library/manipulator_types/cage2d_manipulator.c`).

The embedding keeps the source's structure:
* the hit-test geometry (`manipulator_rect_transform_test_select`) and the
  pivot table (`manipulator_rect_pivot_from_scale_part`) work on exact
  rationals (the C code uses `float`; rationals keep the same arithmetic
  exactly and stay decidable);
* the modal drag math (`manipulator_rect_transform_modal`,
  `..._invoke`, `..._exit`) works on real numbers because
  `len_v3` takes a square root.

Window-to-local projection (`manipulator_window_project_2d`) is an external
collaborator; it enters every function as an `Option` of the projected local
point (`none` = projection failed).
-/

namespace Cage2D

/-- The interactive parts of the cage
(`ED_MANIPULATOR_CAGE2D_PART_*` in `ED_manipulator_library.h`). -/
inductive Part
  | translate
  | rotate
  | scaleMinX
  | scaleMaxX
  | scaleMinY
  | scaleMaxY
  | scaleMinXMinY
  | scaleMinXMaxY
  | scaleMaxXMinY
  | scaleMaxXMaxY
  deriving DecidableEq, Repr

/-- The `transform` RNA flag set
(`ED_MANIPULATOR_CAGE2D_XFORM_FLAG_{TRANSLATE,ROTATE,SCALE,SCALE_UNIFORM}`). -/
structure TransformFlags where
  translate : Bool
  rotate : Bool
  scale : Bool
  scale_uniform : Bool
  deriving DecidableEq, Repr

/-- `rctf`: a rectangle given by its bounds. -/
structure Rect where
  xmin : ℚ
  ymin : ℚ
  xmax : ℚ
  ymax : ℚ
  deriving DecidableEq, Repr

/-- Modelled from the spec: `BLI_rctf_isect_pt_v` (in `BLI_rect`, not under
`src/`) — point-in-rectangle with inclusive bounds ("Strip membership is
tested as ... rectangle containment (inclusive bounds)"). -/
def Rect.isectPt (r : Rect) (p : ℚ × ℚ) : Bool :=
  decide (r.xmin ≤ p.1) && decide (p.1 ≤ r.xmax) &&
  decide (r.ymin ≤ p.2) && decide (p.2 ≤ r.ymax)

/-- `MANIPULATOR_RESIZER_WIDTH`. -/
def MANIPULATOR_RESIZER_WIDTH : ℚ := 20

/-- The margin pair computed at the top of `test_select` (and of the draw
code): aspect-corrected `(aspx*w/20, aspy*h/20)`. -/
def margin (w h : ℚ) : ℚ × ℚ :=
  let aspx : ℚ := if w > h then h / w else 1
  let aspy : ℚ := if w > h then 1 else w / h
  (aspx * w / MANIPULATOR_RESIZER_WIDTH, aspy * h / MANIPULATOR_RESIZER_WIDTH)

/-- The inner translate rectangle `[-size+margin, size-margin]`
(`manipulator_rect_transform_test_select`, translate branch). -/
def r_translate (w h : ℚ) : Rect :=
  ⟨-(w / 2) + (margin w h).1, -(h / 2) + (margin w h).2,
    w / 2 - (margin w h).1, h / 2 - (margin w h).2⟩

/-- The `xmin` scale margin strip. -/
def r_xmin (w h : ℚ) : Rect :=
  ⟨-(w / 2), -(h / 2), -(w / 2) + (margin w h).1, h / 2⟩

/-- The `xmax` scale margin strip. -/
def r_xmax (w h : ℚ) : Rect :=
  ⟨w / 2 - (margin w h).1, -(h / 2), w / 2, h / 2⟩

/-- The `ymin` scale margin strip. -/
def r_ymin (w h : ℚ) : Rect :=
  ⟨-(w / 2), -(h / 2), w / 2, -(h / 2) + (margin w h).2⟩

/-- The `ymax` scale margin strip. -/
def r_ymax (w h : ℚ) : Rect :=
  ⟨-(w / 2), h / 2 - (margin w h).2, w / 2, h / 2⟩

/-- The rotate hot-spot square: centred at `(0, h/2 + margin.y)` with half
extents `margin/2`. -/
def r_rotate (w h : ℚ) : Rect :=
  ⟨0 - (margin w h).1 / 2, (h / 2 + (margin w h).2) - (margin w h).2 / 2,
    0 + (margin w h).1 / 2, (h / 2 + (margin w h).2) + (margin w h).2 / 2⟩

/-- The nested scale-strip tests of `manipulator_rect_transform_test_select`
(corner checks before edge fall-backs, in source order). -/
def scaleHit (w h : ℚ) (pl : ℚ × ℚ) : Option Part :=
  if (r_xmin w h).isectPt pl then
    if (r_ymin w h).isectPt pl then some .scaleMinXMinY
    else if (r_ymax w h).isectPt pl then some .scaleMinXMaxY
    else some .scaleMinX
  else if (r_xmax w h).isectPt pl then
    if (r_ymin w h).isectPt pl then some .scaleMaxXMinY
    else if (r_ymax w h).isectPt pl then some .scaleMaxXMaxY
    else some .scaleMaxX
  else if (r_ymin w h).isectPt pl then some .scaleMinY
  else if (r_ymax w h).isectPt pl then some .scaleMaxY
  else none

/-- `manipulator_rect_transform_test_select`.  The projection of the event's
`mval` to local space comes in as an `Option` (`none` = the
`manipulator_window_project_2d` call returned false); the C function's `-1`
("no part") is `none`. -/
def manipulator_rect_transform_test_select
    (flags : TransformFlags) (w h : ℚ) (point_local? : Option (ℚ × ℚ)) :
    Option Part :=
  match point_local? with
  | none => none
  | some pl =>
    if flags.translate && (r_translate w h).isectPt pl then
      some .translate
    else
      match (if flags.scale || flags.scale_uniform then scaleHit w h pl else none) with
      | some p => some p
      | none =>
        if flags.rotate && (r_rotate w h).isectPt pl then some .rotate
        else none

/-- `manipulator_rect_transform_pivot_from_scale_part`: the pivot point (in the
±0.5 corner space) and the constrain-axis flag pair for each scale part.
The `default: BLI_assert(0)` case (a non-scale part) is modelled as `none`. -/
def manipulator_rect_pivot_from_scale_part (part : Part) :
    Option ((ℚ × ℚ) × (Bool × Bool)) :=
  match part with
  | .scaleMinX => some ((1/2, 0), (false, true))
  | .scaleMaxX => some ((-(1/2), 0), (false, true))
  | .scaleMinY => some ((0, 1/2), (true, false))
  | .scaleMaxY => some ((0, -(1/2)), (true, false))
  | .scaleMinXMinY => some ((1/2, 1/2), (false, false))
  | .scaleMinXMaxY => some ((1/2, -(1/2)), (false, false))
  | .scaleMaxXMinY => some ((-(1/2), 1/2), (false, false))
  | .scaleMaxXMaxY => some ((-(1/2), -(1/2)), (false, false))
  | _ => none

/-! ### The modal drag math, over the reals

A Blender `float mat[4][4]` is column-major: `m[c][r]` is row `r` of column
`c`, and `m[3]` is the translation column.  We keep exactly that indexing:
`M c r` below is the C `m[c][r]`. -/

/-- A 4×4 matrix in Blender's `float[4][4]` layout (`M c r` = `m[c][r]`). -/
def Mat4 := Fin 4 → Fin 4 → ℝ

/-- `unit_m4`: the identity matrix. -/
noncomputable def unit_m4 : Mat4 := fun c r => if c = r then 1 else 0

/-- Modelled from the spec: `mul_m4_m4m4(R, A, B)` (in `BLI_math`, not under
`src/`) — the standard product `R = A·B` on column-major matrices,
`R[j][i] = Σ_k A[k][i]·B[j][k]`, so `B` is applied first. -/
noncomputable def mul_m4_m4m4 (A B : Mat4) : Mat4 :=
  fun j i => ∑ k : Fin 4, A k i * B j k

/-- `len_v3`: Euclidean length of a 3-vector (here: the first three floats of
a matrix column, i.e. a basis vector). -/
noncomputable def len_v3 (x y z : ℝ) : ℝ := Real.sqrt (x * x + y * y + z * z)

/-- `mul_v3_fl(M[c], f)`: scale the first three components of column `c`. -/
noncomputable def mul_v3_fl_col (M : Mat4) (c : Fin 4) (f : ℝ) : Mat4 :=
  fun j i => if j = c ∧ i ≠ 3 then M j i * f else M j i

/-- A translation matrix: `unit_m4` with `(px, py, pz)` written into the
translation column (`tmat` in `transform_pivot_set_m4`). -/
noncomputable def translate_m4 (px py pz : ℝ) : Mat4 :=
  fun c r =>
    if c = 3 then
      if r = 0 then px else if r = 1 then py else if r = 2 then pz else 1
    else if c = r then 1 else 0

/-- Modelled from the spec: `transform_pivot_set_m4(mat, pivot)` (in
`BLI_math`, not under `src/`) — recenter `mat` so it pivots about `pivot`:
"translate by `-pivot`, scale, translate by `+pivot`", i.e.
`mat := T(pivot) · mat · T(-pivot)`. -/
noncomputable def transform_pivot_set_m4 (M : Mat4) (px py pz : ℝ) : Mat4 :=
  mul_m4_m4m4 (mul_m4_m4m4 (translate_m4 px py pz) M) (translate_m4 (-px) (-py) (-pz))

/-- `RectTransformInteraction`: the drag-session snapshot allocated by
`manipulator_rect_transform_invoke`. -/
structure RectTransformInteraction where
  orig_mouse : ℝ × ℝ
  orig_matrix_offset : Mat4

/-- The widget state the modal handlers touch: the live `mpr->matrix_offset`
mirror and the bound `"matrix"` target property (`none` when
`mpr_prop->type == NULL`, i.e. no property is attached). -/
structure ModalState where
  matrix_offset : Mat4
  prop : Option Mat4

/-- Modal/invoke return status (`OPERATOR_RUNNING_MODAL` etc.). -/
inductive Status
  | runningModal
  | finished
  | cancelled
  deriving DecidableEq, Repr

/-- The pivot and constrain-axis pair the scale branch of
`manipulator_rect_transform_modal` uses: the §4.1 table when the TRANSLATE
flag is set, otherwise `zero_v2(pivot)` with the `{false, false}`
initialiser of `constrain_axis`.  (The table's `none` case is unreachable
here — the source asserts — so any default serves.) -/
noncomputable def scalePivot (translate_enabled : Bool) (part : Part) :
    (ℝ × ℝ) × (Bool × Bool) :=
  if translate_enabled then
    match manipulator_rect_pivot_from_scale_part part with
    | some ((a, b), c) => (((a : ℝ), (b : ℝ)), c)
    | none => ((0, 0), (false, false))
  else ((0, 0), (false, false))

/-- One iteration of the scale loop: when the axis is unconstrained, negate
both deltas if `delta_orig < 0`, then `1 + (delta_curr - delta_orig)/len`;
a constrained axis keeps the `{1.0f, 1.0f}` initialiser. -/
noncomputable def scale_factor (constrain : Bool) (delta_orig delta_curr len : ℝ) : ℝ :=
  if constrain = false then
    let d_orig := if delta_orig < 0 then -delta_orig else delta_orig
    let d_curr := if delta_orig < 0 then -delta_curr else delta_curr
    1 + (d_curr - d_orig) / len
  else 1

/-- The SCALE_UNIFORM resolution: if set, copy the factor with the larger
`fabsf(scale[i] - 1.0f)` onto the other axis. -/
noncomputable def scale_uniform_resolve (uniform : Bool) (s : ℝ × ℝ) : ℝ × ℝ :=
  if uniform then
    if |s.1 - 1| > |s.2 - 1| then (s.1, s.1) else (s.2, s.2)
  else s

/-- The per-axis scale factors of the scale branch, before the uniform
resolution: cursor deltas from the pivot, normalised by `dims`, fed through
the axis loop with `len_v3` of the original matrix's basis columns. -/
noncomputable def scale_factors_raw (flags : TransformFlags) (dims : ℝ × ℝ)
    (data : RectTransformInteraction) (part : Part) (point_local : ℝ × ℝ) : ℝ × ℝ :=
  let pc := scalePivot flags.translate part
  let delta_orig := ((data.orig_mouse.1 - pc.1.1) / dims.1,
                     (data.orig_mouse.2 - pc.1.2) / dims.2)
  let delta_curr := ((point_local.1 - pc.1.1) / dims.1,
                     (point_local.2 - pc.1.2) / dims.2)
  let len0 := len_v3 (data.orig_matrix_offset 0 0) (data.orig_matrix_offset 0 1)
      (data.orig_matrix_offset 0 2)
  let len1 := len_v3 (data.orig_matrix_offset 1 0) (data.orig_matrix_offset 1 1)
      (data.orig_matrix_offset 1 2)
  (scale_factor pc.2.1 delta_orig.1 delta_curr.1 len0,
   scale_factor pc.2.2 delta_orig.2 delta_curr.2 len1)

/-- The scale branch of `manipulator_rect_transform_modal`: build the
pure-scale matrix from the (uniform-resolved) factors, recenter it about the
pivot, and compose onto the original matrix. -/
noncomputable def scale_update (flags : TransformFlags) (dims : ℝ × ℝ)
    (data : RectTransformInteraction) (part : Part) (point_local : ℝ × ℝ) : Mat4 :=
  let pc := scalePivot flags.translate part
  let s := scale_uniform_resolve flags.scale_uniform
      (scale_factors_raw flags dims data part point_local)
  let matrix_scale := mul_v3_fl_col (mul_v3_fl_col unit_m4 0 s.1) 1 s.2
  mul_m4_m4m4 data.orig_matrix_offset
    (transform_pivot_set_m4 matrix_scale pc.1.1 pc.1.2 0)

/-- `manipulator_rect_transform_modal`.  `point_local?` is the result of the
`manipulator_window_project_2d` call made with the original matrix swapped
in (`none` = projection failed: the handler returns early, state intact).
On success: refresh `matrix_offset` from the bound property if any, branch
on the highlighted part, then write the result back to the property. -/
noncomputable def manipulator_rect_transform_modal (flags : TransformFlags)
    (dims : ℝ × ℝ) (data : RectTransformInteraction) (highlight_part : Part)
    (st : ModalState) (point_local? : Option (ℝ × ℝ)) : ModalState × Status :=
  match point_local? with
  | none => (st, .runningModal)
  | some pl =>
    let value_xy := (pl.1 - data.orig_mouse.1, pl.2 - data.orig_mouse.2)
    let refreshed := match st.prop with
      | some m => m
      | none => st.matrix_offset
    let new_matrix : Mat4 :=
      if highlight_part = .translate then
        fun c r =>
          if c = 3 ∧ r = 0 then data.orig_matrix_offset 3 0 + value_xy.1
          else if c = 3 ∧ r = 1 then data.orig_matrix_offset 3 1 + value_xy.2
          else data.orig_matrix_offset c r
      else if highlight_part = .rotate then
        refreshed
      else
        scale_update flags dims data highlight_part pl
    ({ matrix_offset := new_matrix,
       prop := st.prop.map fun _ => new_matrix }, .runningModal)

/-- `manipulator_rect_transform_invoke`: snapshot the offset matrix, project
the pointer (falling back to `zero_v2` on failure), return RUNNING_MODAL. -/
noncomputable def manipulator_rect_transform_invoke (st : ModalState)
    (point_local? : Option (ℝ × ℝ)) : RectTransformInteraction × Status :=
  ({ orig_mouse := match point_local? with
       | some p => p
       | none => (0, 0),
     orig_matrix_offset := st.matrix_offset }, .runningModal)

/-- `manipulator_rect_transform_exit`: on cancel, write the snapshot back to
the bound property and restore the local mirror; otherwise do nothing. -/
noncomputable def manipulator_rect_transform_exit (st : ModalState)
    (data : RectTransformInteraction) (cancel : Bool) : ModalState :=
  if cancel then
    { matrix_offset := data.orig_matrix_offset,
      prop := st.prop.map fun _ => data.orig_matrix_offset }
  else st

/-- A whole drag session's pointer-move updates, folded through the modal
handler (each event carries its projection result). -/
noncomputable def session_updates (flags : TransformFlags) (dims : ℝ × ℝ)
    (data : RectTransformInteraction) (part : Part) :
    ModalState → List (Option (ℝ × ℝ)) → ModalState
  | st, [] => st
  | st, e :: es =>
    session_updates flags dims data part
      (manipulator_rect_transform_modal flags dims data part st e).1 es

/-! ### Spec-side definitions (from the claim's words, for comparison) -/

/-- Spec side: a pure-scale matrix with factors `(s0, s1)` on x and y. -/
noncomputable def specScaleMat (s0 s1 : ℝ) : Mat4 :=
  fun c r =>
    if c = 0 ∧ r = 0 then s0
    else if c = 1 ∧ r = 1 then s1
    else if c = r then 1 else 0

/-- Spec side, from the claim's words: "if `deltaOrig[axis] < 0` both deltas
on that axis are negated, and `scale[axis] = 1 + (deltaCurr[axis] -
deltaOrig[axis]) / length ...`; constrained axes keep scale factor
exactly 1". -/
noncomputable def specScaleFactor (constrain : Bool) (dOrig dCurr len : ℝ) : ℝ :=
  if constrain then 1
  else if dOrig < 0 then 1 + (-dCurr - -dOrig) / len
  else 1 + (dCurr - dOrig) / len

/-- Spec side, from the claim's words: deltas from the pivot divided
component-wise by `(width, height)`, per-axis factors by `specScaleFactor`
against the lengths of the origin matrix's basis vectors, and the result
`originOffsetMatrix × (T(pivot) · scale · T(-pivot))`. -/
noncomputable def specScaleNewOffset (origM : Mat4) (dims origMouse pivot : ℝ × ℝ)
    (constrain : Bool × Bool) (pl : ℝ × ℝ) : Mat4 :=
  let dO := ((origMouse.1 - pivot.1) / dims.1, (origMouse.2 - pivot.2) / dims.2)
  let dC := ((pl.1 - pivot.1) / dims.1, (pl.2 - pivot.2) / dims.2)
  let s0 := specScaleFactor constrain.1 dO.1 dC.1
      (len_v3 (origM 0 0) (origM 0 1) (origM 0 2))
  let s1 := specScaleFactor constrain.2 dO.2 dC.2
      (len_v3 (origM 1 0) (origM 1 1) (origM 1 2))
  mul_m4_m4m4 origM
    (mul_m4_m4m4 (translate_m4 pivot.1 pivot.2 0)
      (mul_m4_m4m4 (specScaleMat s0 s1) (translate_m4 (-pivot.1) (-pivot.2) 0)))

/-! ### Helper lemmas -/

lemma mul_m4_m4m4_assoc (A B C : Mat4) :
    mul_m4_m4m4 (mul_m4_m4m4 A B) C = mul_m4_m4m4 A (mul_m4_m4m4 B C) := by
  funext j i
  simp only [mul_m4_m4m4, Finset.sum_mul, Finset.mul_sum]
  rw [Finset.sum_comm]
  refine Finset.sum_congr rfl fun k _ => Finset.sum_congr rfl fun m _ => ?_
  ring

lemma unit_m4_mul (M : Mat4) : mul_m4_m4m4 unit_m4 M = M := by
  funext j i
  fin_cases i <;> simp [mul_m4_m4m4, unit_m4, Fin.sum_univ_four]

lemma scale_build_eq (a b : ℝ) :
    mul_v3_fl_col (mul_v3_fl_col unit_m4 0 a) 1 b = specScaleMat a b := by
  funext c r
  fin_cases c <;> fin_cases r <;>
    simp [mul_v3_fl_col, unit_m4, specScaleMat]

lemma scale_factor_eq_spec (constrain : Bool) (dOrig dCurr len : ℝ) :
    scale_factor constrain dOrig dCurr len = specScaleFactor constrain dOrig dCurr len := by
  cases constrain <;> simp [scale_factor, specScaleFactor] <;> split_ifs <;> ring

lemma transform_pivot_scaleMat_entry11 (s0 s1 px py : ℝ) :
    transform_pivot_set_m4 (specScaleMat s0 s1) px py 0 1 1 = s1 := by
  simp [transform_pivot_set_m4, mul_m4_m4m4, translate_m4, specScaleMat,
    Fin.sum_univ_four]

lemma modal_scale_branch (flags : TransformFlags) (dims : ℝ × ℝ)
    (data : RectTransformInteraction) (p : Part) (st : ModalState) (pl : ℝ × ℝ)
    (h1 : p ≠ .translate) (h2 : p ≠ .rotate) :
    (manipulator_rect_transform_modal flags dims data p st (some pl)).1.matrix_offset
      = scale_update flags dims data p pl := by
  simp [manipulator_rect_transform_modal, h1, h2]

lemma scale_update_eq (flags : TransformFlags) (dims : ℝ × ℝ)
    (data : RectTransformInteraction) (p : Part) (pl : ℝ × ℝ) :
    scale_update flags dims data p pl
      = mul_m4_m4m4 data.orig_matrix_offset
          (transform_pivot_set_m4
            (specScaleMat
              (scale_uniform_resolve flags.scale_uniform
                (scale_factors_raw flags dims data p pl)).1
              (scale_uniform_resolve flags.scale_uniform
                (scale_factors_raw flags dims data p pl)).2)
            (scalePivot flags.translate p).1.1 (scalePivot flags.translate p).1.2 0) := by
  simp only [scale_update, scale_build_eq]

lemma scalePivot_minX : scalePivot true .scaleMinX = ((1 / 2, 0), (false, true)) := by
  simp [scalePivot, manipulator_rect_pivot_from_scale_part]

lemma len_v3_unit0 : len_v3 (unit_m4 0 0) (unit_m4 0 1) (unit_m4 0 2) = 1 := by
  simp [unit_m4, len_v3]

lemma len_v3_unit1 : len_v3 (unit_m4 1 0) (unit_m4 1 1) (unit_m4 1 2) = 1 := by
  simp [unit_m4, len_v3]

lemma mul_unit_tps_entry11 (s0 s1 px py : ℝ) :
    mul_m4_m4m4 unit_m4 (transform_pivot_set_m4 (specScaleMat s0 s1) px py 0) 1 1 = s1 := by
  rw [unit_m4_mul, transform_pivot_scaleMat_entry11]

lemma mul_unit_spec_entry11 (s0 s1 px py : ℝ) :
    mul_m4_m4m4 unit_m4
      (mul_m4_m4m4 (translate_m4 px py 0)
        (mul_m4_m4m4 (specScaleMat s0 s1) (translate_m4 (-px) (-py) 0))) 1 1 = s1 := by
  simp [mul_m4_m4m4, translate_m4, specScaleMat, unit_m4, Fin.sum_univ_four]

/-! ### The claims -/

/-- C4: for each of the 8 scale parts, `manipulator_rect_pivot_from_scale_part`
returns the pivot diametrically opposite the dragged handle, with coordinates
in {-0.5, 0, 0.5}; constraint flags are both `false` (unconstrained) for the
4 corner parts and lock exactly the non-dragged axis for the 4 edge parts;
the non-scale parts hit the assertion case (modelled `none`). -/
theorem c4_pivot_table :
    manipulator_rect_pivot_from_scale_part .scaleMinX = some ((1/2, 0), (false, true)) ∧
    manipulator_rect_pivot_from_scale_part .scaleMaxX = some ((-(1/2), 0), (false, true)) ∧
    manipulator_rect_pivot_from_scale_part .scaleMinY = some ((0, 1/2), (true, false)) ∧
    manipulator_rect_pivot_from_scale_part .scaleMaxY = some ((0, -(1/2)), (true, false)) ∧
    manipulator_rect_pivot_from_scale_part .scaleMinXMinY = some ((1/2, 1/2), (false, false)) ∧
    manipulator_rect_pivot_from_scale_part .scaleMinXMaxY = some ((1/2, -(1/2)), (false, false)) ∧
    manipulator_rect_pivot_from_scale_part .scaleMaxXMinY = some ((-(1/2), 1/2), (false, false)) ∧
    manipulator_rect_pivot_from_scale_part .scaleMaxXMaxY = some ((-(1/2), -(1/2)), (false, false)) ∧
    manipulator_rect_pivot_from_scale_part .translate = none ∧
    manipulator_rect_pivot_from_scale_part .rotate = none :=
  ⟨rfl, rfl, rfl, rfl, rfl, rfl, rfl, rfl, rfl, rfl⟩

/-- C7: with Translate and Scale both enabled, a pointer inside the inner
translate rectangle and inside a scale margin strip resolves to the
translate part — the translate test runs first and returns immediately. -/
theorem c7_translate_priority (flags : TransformFlags) (w h : ℚ) (p : ℚ × ℚ)
    (hT : flags.translate = true) (hS : flags.scale = true)
    (hin : (r_translate w h).isectPt p = true)
    (hstrip : (r_xmin w h).isectPt p = true ∨ (r_xmax w h).isectPt p = true ∨
      (r_ymin w h).isectPt p = true ∨ (r_ymax w h).isectPt p = true) :
    manipulator_rect_transform_test_select flags w h (some p) = some .translate := by
  simp [manipulator_rect_transform_test_select, hT, hin]

theorem c7_translate_priority_witness :
    ((r_translate 2 2).isectPt (-(9/10), 0) = true) ∧
    ((r_xmin 2 2).isectPt (-(9/10), 0) = true) ∧
    manipulator_rect_transform_test_select ⟨true, false, true, false⟩ 2 2
      (some (-(9/10), 0)) = some .translate :=
  ⟨by norm_num [Rect.isectPt, r_translate, margin, MANIPULATOR_RESIZER_WIDTH],
   by norm_num [Rect.isectPt, r_xmin, margin, MANIPULATOR_RESIZER_WIDTH],
   c7_translate_priority ⟨true, false, true, false⟩ 2 2 (-(9/10), 0) rfl rfl
     (by norm_num [Rect.isectPt, r_translate, margin, MANIPULATOR_RESIZER_WIDTH])
     (Or.inl (by norm_num [Rect.isectPt, r_xmin, margin, MANIPULATOR_RESIZER_WIDTH]))⟩

/-- C10: a projection failure makes `test_select` return the same sentinel
(`-1`, here `none`) as a geometric miss, before any flag or region test —
shown both as the general no-projection law and at a concrete miss. -/
theorem c10_projection_failure_sentinel :
    (∀ (flags : TransformFlags) (w h : ℚ),
      manipulator_rect_transform_test_select flags w h none = none) ∧
    manipulator_rect_transform_test_select ⟨true, true, true, true⟩ 2 2
      (some (100, 100)) = none := by
  refine ⟨fun _ _ _ => rfl, ?_⟩
  norm_num [manipulator_rect_transform_test_select, scaleHit, Rect.isectPt,
    r_translate, r_xmin, r_xmax, r_ymin, r_ymax, r_rotate, margin,
    MANIPULATOR_RESIZER_WIDTH]

/-- C2: a translate drag update adds the pointer delta to translation
components `[3][0]` and `[3][1]` of the pre-drag snapshot and copies every
other component of the snapshot unchanged. -/
theorem c2_translate_update (flags : TransformFlags) (dims : ℝ × ℝ)
    (data : RectTransformInteraction) (st : ModalState) (pl : ℝ × ℝ) :
    ((manipulator_rect_transform_modal flags dims data .translate st
        (some pl)).1.matrix_offset 3 0
      = data.orig_matrix_offset 3 0 + (pl.1 - data.orig_mouse.1)) ∧
    ((manipulator_rect_transform_modal flags dims data .translate st
        (some pl)).1.matrix_offset 3 1
      = data.orig_matrix_offset 3 1 + (pl.2 - data.orig_mouse.2)) ∧
    ∀ c r : Fin 4, ¬(c = 3 ∧ (r = 0 ∨ r = 1)) →
      (manipulator_rect_transform_modal flags dims data .translate st
        (some pl)).1.matrix_offset c r = data.orig_matrix_offset c r := by
  refine ⟨by simp [manipulator_rect_transform_modal],
    by simp [manipulator_rect_transform_modal], ?_⟩
  intro c r hcr
  have h0 : ¬(c = 3 ∧ r = 0) := fun hc => hcr ⟨hc.1, Or.inl hc.2⟩
  have h1 : ¬(c = 3 ∧ r = 1) := fun hc => hcr ⟨hc.1, Or.inr hc.2⟩
  simp [manipulator_rect_transform_modal, h0, h1]

theorem c2_translate_update_witness :
    ((manipulator_rect_transform_modal ⟨true, false, false, false⟩ (1, 1)
        ⟨(0, 0), unit_m4⟩ .translate ⟨unit_m4, none⟩ (some (5, -3))).1.matrix_offset 3 0
      = unit_m4 3 0 + ((5 : ℝ) - 0)) ∧
    ((manipulator_rect_transform_modal ⟨true, false, false, false⟩ (1, 1)
        ⟨(0, 0), unit_m4⟩ .translate ⟨unit_m4, none⟩ (some (5, -3))).1.matrix_offset 0 0
      = unit_m4 0 0) :=
  ⟨(c2_translate_update ⟨true, false, false, false⟩ (1, 1) ⟨(0, 0), unit_m4⟩
      ⟨unit_m4, none⟩ (5, -3)).1,
   (c2_translate_update ⟨true, false, false, false⟩ (1, 1) ⟨(0, 0), unit_m4⟩
      ⟨unit_m4, none⟩ (5, -3)).2.2 0 0 (by decide)⟩

/-- C3: for any drag session (any part, any update sequence), exiting with
cancel restores the offset matrix to the invoke-time snapshot and pushes the
restored value to the bound property; exiting without cancel leaves the
state exactly as the last update computed it. -/
theorem c3_cancel_restores (flags : TransformFlags) (dims : ℝ × ℝ) (part : Part)
    (s0 : ModalState) (proj0 : Option (ℝ × ℝ)) (events : List (Option (ℝ × ℝ))) :
    let data := (manipulator_rect_transform_invoke s0 proj0).1
    let s1 := session_updates flags dims data part s0 events
    (manipulator_rect_transform_exit s1 data true).matrix_offset = s0.matrix_offset ∧
    (manipulator_rect_transform_exit s1 data true).prop
      = s1.prop.map (fun _ => s0.matrix_offset) ∧
    manipulator_rect_transform_exit s1 data false = s1 := by
  exact ⟨rfl, rfl, rfl⟩

/-- C8: a rotate-drag update applies no rotation math: the state keeps the
matrix exactly as refreshed from the bound property (or the previous mirror
when unbound) — in particular the pre-drag matrix when the property mirrors
it. -/
theorem c8_rotate_inert (flags : TransformFlags) (dims : ℝ × ℝ)
    (data : RectTransformInteraction) (st : ModalState) (pl : ℝ × ℝ) :
    (manipulator_rect_transform_modal flags dims data .rotate st (some pl)
      = (let refreshed := match st.prop with
           | some m => m
           | none => st.matrix_offset
         ({ matrix_offset := refreshed, prop := st.prop.map fun _ => refreshed },
          .runningModal))) ∧
    (st.prop = some data.orig_matrix_offset →
      (manipulator_rect_transform_modal flags dims data .rotate st
        (some pl)).1.matrix_offset = data.orig_matrix_offset) := by
  constructor
  · rfl
  · intro h
    simp [manipulator_rect_transform_modal, h]

theorem c8_rotate_inert_witness :
    (manipulator_rect_transform_modal ⟨false, true, false, false⟩ (1, 1)
      ⟨(0, 0), unit_m4⟩ .rotate ⟨unit_m4, some unit_m4⟩
      (some (1, 1))).1.matrix_offset = unit_m4 :=
  (c8_rotate_inert ⟨false, true, false, false⟩ (1, 1) ⟨(0, 0), unit_m4⟩
    ⟨unit_m4, some unit_m4⟩ (1, 1)).2 rfl

/-- C9: projection failure is recovered locally: invoke with a failed
projection records the local origin as the drag-start pointer and still
returns RUNNING_MODAL; a modal update with a failed projection leaves the
state untouched and still returns RUNNING_MODAL. -/
theorem c9_projection_failure_recovery (st : ModalState) (flags : TransformFlags)
    (dims : ℝ × ℝ) (data : RectTransformInteraction) (part : Part) :
    manipulator_rect_transform_invoke st none
      = ({ orig_mouse := (0, 0), orig_matrix_offset := st.matrix_offset },
         .runningModal) ∧
    (∀ pl : ℝ × ℝ, (manipulator_rect_transform_invoke st (some pl)).2 = .runningModal) ∧
    manipulator_rect_transform_modal flags dims data part st none = (st, .runningModal) :=
  ⟨rfl, fun _ => rfl, rfl⟩

/-- C5: the scale branch takes its pivot and constraint flags from the
`pivot_from_scale_part` table exactly when the TRANSLATE flag is enabled;
with TRANSLATE disabled the pivot is the local origin with both axes
unconstrained, for every part. -/
theorem c5_scale_pivot_selection (p : Part) (pc : (ℚ × ℚ) × (Bool × Bool))
    (h : manipulator_rect_pivot_from_scale_part p = some pc) :
    scalePivot true p = (((pc.1.1 : ℝ), (pc.1.2 : ℝ)), pc.2) ∧
    ∀ q : Part, scalePivot false q = ((0, 0), (false, false)) := by
  obtain ⟨⟨a, b⟩, c⟩ := pc
  exact ⟨by simp [scalePivot, h], fun _ => rfl⟩

/-- C1 (amended: configurations without SCALE_UNIFORM): a scale-part update
with a successful projection computes the new offset matrix exactly as the
claim's formula: pivot-relative deltas normalised by the dimensions,
outward-negation when `deltaOrig < 0`, per-axis factor
`1 + (deltaCurr-deltaOrig)/len(basis)` (constrained axes stay 1), and
`originOffsetMatrix × (T(pivot) · scale · T(-pivot))`. -/
theorem c1_scale_formula (flags : TransformFlags) (dims : ℝ × ℝ)
    (data : RectTransformInteraction) (p : Part) (st : ModalState) (pl : ℝ × ℝ)
    (h1 : p ≠ .translate) (h2 : p ≠ .rotate) (huni : flags.scale_uniform = false) :
    (manipulator_rect_transform_modal flags dims data p st (some pl)).1.matrix_offset
      = specScaleNewOffset data.orig_matrix_offset dims data.orig_mouse
          (scalePivot flags.translate p).1 (scalePivot flags.translate p).2 pl := by
  rw [modal_scale_branch flags dims data p st pl h1 h2, scale_update_eq, huni]
  simp [specScaleNewOffset, transform_pivot_set_m4, mul_m4_m4m4_assoc,
    scale_uniform_resolve, scale_factors_raw, scale_factor_eq_spec]

theorem c1_scale_formula_witness :
    (manipulator_rect_transform_modal ⟨true, false, true, false⟩ (1, 1)
        ⟨(-(1/2), 0), unit_m4⟩ .scaleMinX ⟨unit_m4, none⟩
        (some (-(3/2), 0))).1.matrix_offset
      = specScaleNewOffset unit_m4 (1, 1) (-(1/2), 0)
          (scalePivot (⟨true, false, true, false⟩ : TransformFlags).translate .scaleMinX).1
          (scalePivot (⟨true, false, true, false⟩ : TransformFlags).translate .scaleMinX).2
          (-(3/2), 0) :=
  c1_scale_formula ⟨true, false, true, false⟩ (1, 1) ⟨(-(1/2), 0), unit_m4⟩ .scaleMinX
    ⟨unit_m4, none⟩ (-(3/2), 0) (by decide) (by decide) rfl

/-- C1 counterexample: with SCALE_UNIFORM enabled the claim's formula fails —
the uniform resolution copies the unconstrained factor onto the constrained
axis, so the constrained axis does not keep scale factor 1 (here entry
`[1][1]` is 2 in the code's result but 1 in the claim's formula). -/
theorem c1_counterexample :
    (manipulator_rect_transform_modal ⟨true, false, true, true⟩ (1, 1)
        ⟨(-(1/2), 0), unit_m4⟩ .scaleMinX ⟨unit_m4, none⟩
        (some (-(3/2), 0))).1.matrix_offset
      ≠ specScaleNewOffset unit_m4 (1, 1) (-(1/2), 0)
          (scalePivot (⟨true, false, true, true⟩ : TransformFlags).translate .scaleMinX).1
          (scalePivot (⟨true, false, true, true⟩ : TransformFlags).translate .scaleMinX).2
          (-(3/2), 0) := by
  have hraw : scale_factors_raw ⟨true, false, true, true⟩ (1, 1)
      ⟨(-(1/2), 0), unit_m4⟩ .scaleMinX (-(3/2), 0) = (2, 1) := by
    norm_num [scale_factors_raw, scalePivot_minX, len_v3_unit0, len_v3_unit1,
      scale_factor]
  have hL : (manipulator_rect_transform_modal ⟨true, false, true, true⟩ (1, 1)
      ⟨(-(1/2), 0), unit_m4⟩ .scaleMinX ⟨unit_m4, none⟩
      (some (-(3/2), 0))).1.matrix_offset 1 1 = 2 := by
    rw [modal_scale_branch _ _ _ _ _ _ (by decide) (by decide), scale_update_eq, hraw]
    rw [mul_unit_tps_entry11]
    norm_num [scale_uniform_resolve]
  have hR : specScaleNewOffset unit_m4 (1, 1) (-(1/2), 0)
      (scalePivot (⟨true, false, true, true⟩ : TransformFlags).translate .scaleMinX).1
      (scalePivot (⟨true, false, true, true⟩ : TransformFlags).translate .scaleMinX).2
      (-(3/2), 0) 1 1 = 1 := by
    simp only [specScaleNewOffset, scalePivot_minX]
    rw [mul_unit_spec_entry11]
    simp [specScaleFactor]
  intro h
  rw [h, hR] at hL
  norm_num at hL

theorem c5_scale_pivot_selection_witness :
    scalePivot true .scaleMinX = ((((1/2 : ℚ) : ℝ), ((0 : ℚ) : ℝ)), (false, true)) ∧
    ∀ q : Part, scalePivot false q = ((0, 0), (false, false)) :=
  c5_scale_pivot_selection .scaleMinX ((1/2, 0), (false, true)) rfl

/-- C6: with SCALE_UNIFORM enabled, the per-axis factors are forced equal
after they are computed: the resolved pair is one of the raw factors, its
deviation from 1 is the larger of the two raw deviations, and the committed
matrix is built from the two equal factors. -/
theorem c6_scale_uniform (flags : TransformFlags) (dims : ℝ × ℝ)
    (data : RectTransformInteraction) (p : Part) (st : ModalState) (pl : ℝ × ℝ)
    (h1 : p ≠ .translate) (h2 : p ≠ .rotate) (hu : flags.scale_uniform = true) :
    ((scale_uniform_resolve flags.scale_uniform
        (scale_factors_raw flags dims data p pl)).1
      = (scale_uniform_resolve flags.scale_uniform
          (scale_factors_raw flags dims data p pl)).2) ∧
    ((scale_uniform_resolve flags.scale_uniform
        (scale_factors_raw flags dims data p pl)).1
          = (scale_factors_raw flags dims data p pl).1 ∨
      (scale_uniform_resolve flags.scale_uniform
        (scale_factors_raw flags dims data p pl)).1
          = (scale_factors_raw flags dims data p pl).2) ∧
    (|(scale_uniform_resolve flags.scale_uniform
        (scale_factors_raw flags dims data p pl)).1 - 1|
      = max (|(scale_factors_raw flags dims data p pl).1 - 1|)
            (|(scale_factors_raw flags dims data p pl).2 - 1|)) ∧
    (manipulator_rect_transform_modal flags dims data p st (some pl)).1.matrix_offset
      = mul_m4_m4m4 data.orig_matrix_offset
          (transform_pivot_set_m4
            (specScaleMat
              (scale_uniform_resolve flags.scale_uniform
                (scale_factors_raw flags dims data p pl)).1
              (scale_uniform_resolve flags.scale_uniform
                (scale_factors_raw flags dims data p pl)).1)
            (scalePivot flags.translate p).1.1
            (scalePivot flags.translate p).1.2 0) := by
  rw [hu]
  set r := scale_factors_raw flags dims data p pl with hr
  by_cases hgt : |r.1 - 1| > |r.2 - 1|
  · have hs : scale_uniform_resolve true r = (r.1, r.1) := by
      simp [scale_uniform_resolve, hgt]
    rw [hs]
    refine ⟨rfl, Or.inl rfl, (max_eq_left hgt.le).symm, ?_⟩
    rw [modal_scale_branch flags dims data p st pl h1 h2, scale_update_eq, hu, ← hr, hs]
  · have hs : scale_uniform_resolve true r = (r.2, r.2) := by
      simp [scale_uniform_resolve, hgt]
    rw [hs]
    refine ⟨rfl, Or.inr rfl, (max_eq_right (not_lt.mp hgt)).symm, ?_⟩
    rw [modal_scale_branch flags dims data p st pl h1 h2, scale_update_eq, hu, ← hr, hs]

theorem c6_scale_uniform_witness :
    (scale_uniform_resolve (⟨true, false, true, true⟩ : TransformFlags).scale_uniform
        (scale_factors_raw ⟨true, false, true, true⟩ (1, 1)
          ⟨(-(1/2), 0), unit_m4⟩ .scaleMinX (-(3/2), 0))).1
      = (scale_uniform_resolve (⟨true, false, true, true⟩ : TransformFlags).scale_uniform
          (scale_factors_raw ⟨true, false, true, true⟩ (1, 1)
            ⟨(-(1/2), 0), unit_m4⟩ .scaleMinX (-(3/2), 0))).2 :=
  (c6_scale_uniform ⟨true, false, true, true⟩ (1, 1) ⟨(-(1/2), 0), unit_m4⟩ .scaleMinX
    ⟨unit_m4, none⟩ (-(3/2), 0) (by decide) (by decide) rfl).1

end Cage2D
